import Mathlib

/-!
Verification of the strategy-execution core of the `strategy_spec` repository
against its natural-language specification.

The Python sources are shallowly embedded:

* Python `float` values are modelled as exact rationals (`ℚ`); every claim
  under consideration is about the algebraic structure of the computations,
  not about binary rounding.
* Python dict payload values that can be either numbers, decimal strings or
  `None` are modelled by the inductive `PyVal`; `PyVal.pstr q` denotes the
  decimal string produced by Python `str(x)` applied to the number `x`
  (Python's `str`/`float` pair round-trips, so the string is identified with
  its numeric value).
* nondeterministic ambient inputs (the wall clock, `uuid4` draws, the pytz
  timezone database) are passed to the embedded functions as explicit inputs.
-/

namespace StrategySpec

/-- Payload value of a Python order-operation dict: a raw number (int/float),
the decimal string rendering of a number (`str(x)`), a Money dict
`{"amount": a}`, or `None`. -/
inductive PyVal where
  | num (q : ℚ)
  | pstr (q : ℚ)
  | amountDict (amount : ℚ)
  | pnone
  deriving DecidableEq, Repr

/-- Whether a payload value is a Python string. -/
def PyVal.isStr : PyVal → Bool
  | .pstr _ => true
  | _ => false

/-- Python `float(...)` applied to a payload value: numbers and numeric
strings yield their value (`_create_order` always writes a number into the
`qty` slot, so the `pnone` case is dead there and mapped to the `.get`
default `0`). -/
def PyVal.toFloat : PyVal → ℚ
  | .num q => q
  | .pstr q => q
  | .amountDict a => a
  | .pnone => 0

/-! ## Market types and market time (`engine/compat/market_type.py`,
`engine/compat/market_time.py`) -/

/-- MarketType enum from `engine/compat/market_type.py`. -/
inductive MarketType where
  | A_STOCK
  | US_STOCK
  | HK_STOCK
  | CRYPTO
  | UNKNOWN
  deriving DecidableEq, Repr

/-- Python `MarketType(s)`: the enum constructor, `none` models the
`ValueError` branch. -/
def MarketType.ofString? : String → Option MarketType
  | "A_STOCK" => some .A_STOCK
  | "US_STOCK" => some .US_STOCK
  | "HK_STOCK" => some .HK_STOCK
  | "CRYPTO" => some .CRYPTO
  | "UNKNOWN" => some .UNKNOWN
  | _ => Option.none

/-- The `MARKET_TRADING_HOURS` table of `market_time.py`: per market kind, the
(hour, minute) of each named time point; `Option.none` models a key that is
absent from the dict (including the whole-table miss
`MARKET_TRADING_HOURS.get(market_type.value, {})` for `UNKNOWN`). -/
def MARKET_TRADING_HOURS : MarketType → String → Option (ℕ × ℕ)
  | .A_STOCK, "open" => some (9, 30)
  | .A_STOCK, "close" => some (15, 0)
  | .A_STOCK, "before_open" => some (9, 25)
  | .A_STOCK, "after_close" => some (15, 5)
  | .US_STOCK, "open" => some (9, 30)
  | .US_STOCK, "close" => some (16, 0)
  | .US_STOCK, "before_open" => some (9, 25)
  | .US_STOCK, "after_close" => some (16, 5)
  | .HK_STOCK, "open" => some (9, 30)
  | .HK_STOCK, "close" => some (16, 0)
  | .HK_STOCK, "before_open" => some (9, 25)
  | .HK_STOCK, "after_close" => some (16, 5)
  | .CRYPTO, "open" => some (0, 0)
  | .CRYPTO, "close" => some (23, 59)
  | .CRYPTO, "before_open" => some (0, 0)
  | .CRYPTO, "after_close" => some (23, 59)
  | _, _ => Option.none

/-- Wall-clock fields of a market-local Python datetime (the calendar date is
irrelevant to time matching because the target time is rebuilt on the same
date as "now"). -/
structure LocalTime where
  hour : ℕ
  minute : ℕ
  second : ℕ
  microsecond : ℕ
  deriving DecidableEq, Repr

/-- Microseconds since local midnight. -/
def LocalTime.toMicros (t : LocalTime) : ℤ :=
  ((t.hour * 3600 + t.minute * 60 + t.second) * 1000000 + t.microsecond : ℕ)

/-- Model of `get_market_time_point` (`market_time.py`): look up the point in
the trading-hours table and substitute hour/minute, zeroing second and
microsecond, on the same calendar date as the local time of "now".  Both
`get_market_time_point` and `is_time_match` convert the same UTC instant with
`get_market_local_time`, so the embedding takes the market-local time of
"now" directly. -/
def get_market_time_point (local_time : LocalTime) (market_type : MarketType)
    (time_point : String) : Option LocalTime :=
  match MARKET_TRADING_HOURS market_type time_point with
  | Option.none => Option.none
  | some (h, m) =>
      some { local_time with hour := h, minute := m, second := 0, microsecond := 0 }

/-- Model of `is_time_match` (`market_time.py`): resolve the target point,
then compare `abs((current_local - target_time).total_seconds() / 60)` with
the tolerance. -/
def is_time_match (current_local : LocalTime) (market_type : MarketType)
    (time_point : String) (tolerance_minutes : ℤ) : Bool :=
  match get_market_time_point current_local market_type time_point with
  | Option.none => false
  | some target_time =>
      decide (|(((current_local.toMicros - target_time.toMicros : ℤ) : ℚ) / 1000000) / 60|
        ≤ (tolerance_minutes : ℚ))

/-! ## Context, orders and the order-operation ledger
(`engine/context/context.py`) -/

/-- K-line bar (`Bar` dataclass).  OHLCV prices are decimal strings in the
source; the embedding carries their numeric values. -/
structure Bar where
  open_time : ℤ
  close_time : ℤ
  bopen : ℚ
  high : ℚ
  low : ℚ
  close : ℚ
  volume : ℚ
  deriving DecidableEq, Repr

/-- Order dataclass.  `limit_price` is `str(price)` or `None` in the source;
the embedding carries the numeric value of the decimal string. -/
structure Order where
  order_id : String := ""
  unique_id : String := ""
  symbol : String := ""
  direction_type : ℕ := 0
  order_type : ℕ := 0
  qty : ℚ := 0
  limit_price : Option ℚ := Option.none
  status : ℕ := 0
  executed_size : ℚ := 0
  avg_fill_price : Option ℚ := Option.none
  commission : Option ℚ := Option.none
  cancel_reason : Option String := Option.none
  deriving DecidableEq, Repr

/-- RiskEvent dataclass. -/
structure RiskEvent where
  risk_event_type : ℕ := 0
  remark : String := ""
  deriving DecidableEq, Repr

/-- One market-data block of `market_data_context`. -/
structure MarketDataBlock where
  symbol : String
  timeframe : String
  bars : List Bar
  deriving DecidableEq, Repr

/-- Account dataclass (contents are carried through; no claim inspects the
monetary fields beyond what the Context exposes). -/
structure Account where
  account_id : String := ""
  account_type : ℕ := 0
  margin_ratio : ℚ := 0
  risk_level : ℚ := 0
  leverage : ℚ := 0
  deriving DecidableEq, Repr

/-- One entry of `Context._order_operations`: a dict with an
`"order_op_type"` tag and an `"order"` payload dict.  `create` carries
exactly the keys written by `_create_order` (`order_op_type` 1); `cancel`
carries the key written by `cancel_order` (`order_op_type` 2). -/
inductive OrderOp where
  | create (unique_id : String) (symbol : String) (direction_type : ℕ)
      (order_type : ℕ) (qty : PyVal) (limit_price : PyVal) (time_in_force : ℕ)
  | cancel (order_id : String)
  deriving DecidableEq, Repr

/-- The `"qty"` entry of a create payload (`.get` default for cancel ops). -/
def OrderOp.payload_qty : OrderOp → PyVal
  | .create _ _ _ _ qty _ _ => qty
  | .cancel _ => .pnone

/-- Execution Context (`Context` class).  `uuid_supply` models the stream of
`uuid.uuid4().hex[:8]` draws, `strategy_data` the free-form
`_strategy_data` attribute store (string-valued entries suffice for the
claims), `current_dt_weekday`/`current_dt` views are introduced later with
the scheduler.  The Portfolio view is not modelled: no claim inspects it. -/
structure Context where
  account : Account
  market_data_context : List MarketDataBlock
  incomplete_orders : List Order
  completed_orders : List Order
  params : List (String × String)
  exec_id : String
  exchange : String
  current_bar : Option Bar
  order_operations : List OrderOp
  strategy_data : List (String × String)
  uuid_supply : List String
  deriving DecidableEq, Repr

/-- Python `list.copy()`: a fresh list with the same elements. -/
def pyListCopy {α : Type} (l : List α) : List α :=
  l.foldr (fun a r => a :: r) []

/-- Model of `Context.get_order_operations`: `self._order_operations.copy()`
— a snapshot copy, the ledger itself is not cleared. -/
def Context.get_order_operations (ctx : Context) : List OrderOp :=
  pyListCopy ctx.order_operations

/-- Model of `Context.cancel_order`: scan the incomplete orders for a match
on `order_id` or `unique_id`; on a match append one Cancel operation and
report `True`, otherwise report `False` without touching anything. -/
def Context.cancel_order (ctx : Context) (order_id : String) : Bool × Context :=
  if ctx.incomplete_orders.any (fun o => o.order_id == order_id || o.unique_id == order_id) then
    (true, { ctx with order_operations := ctx.order_operations ++ [OrderOp.cancel order_id] })
  else
    (false, ctx)

/-- Model of `Context._create_order`: build the Order value (fresh
`{exec_id}_{uuid4().hex[:8]}` unique id, Limit type 2 when a price is given
else Market type 1, status New = 1), append one Create operation whose
payload carries `qty` as the raw number and `limit_price` as `str(price)`
or `None`, with `time_in_force` 2 (GTC), and return the Order. -/
def Context._create_order (ctx : Context) (symbol : String) (quantity : ℚ)
    (direction_type : ℕ) (price : Option ℚ) : Order × Context :=
  let uuid_hex8 := ctx.uuid_supply.headD ""
  let unique_id := ctx.exec_id ++ "_" ++ uuid_hex8
  let order_type : ℕ := if price.isSome then 2 else 1
  let order : Order :=
    { unique_id := unique_id, symbol := symbol, direction_type := direction_type,
      order_type := order_type, qty := quantity, limit_price := price, status := 1 }
  let op : OrderOp :=
    OrderOp.create unique_id symbol direction_type order_type (PyVal.num quantity)
      (match price with
       | some p => PyVal.pstr p
       | Option.none => PyVal.pnone) 2
  (order, { ctx with order_operations := ctx.order_operations ++ [op],
                     uuid_supply := ctx.uuid_supply.tail })

/-- Model of `Context.order_buy` (direction 1 = BUY). -/
def Context.order_buy (ctx : Context) (symbol : String) (quantity : ℚ)
    (price : Option ℚ := Option.none) : Order × Context :=
  ctx._create_order symbol quantity 1 price

/-- Model of `Context.order_sell` (direction 2 = SELL). -/
def Context.order_sell (ctx : Context) (symbol : String) (quantity : ℚ)
    (price : Option ℚ := Option.none) : Order × Context :=
  ctx._create_order symbol quantity 2 price

/-- Model of `Context.history`: find the matching market-data block and
return its last `count` bars (Python `bars_data[-count:]`, which is the
whole list when `count = 0`). -/
def Context.history (ctx : Context) (symbol : String) (count : ℕ)
    (timeframe : String) : List Bar :=
  match ctx.market_data_context.find? (fun c => c.symbol == symbol && c.timeframe == timeframe) with
  | some c => if count = 0 then c.bars else c.bars.drop (c.bars.length - count)
  | Option.none => []

/-! ## Event dispatcher (`engine/dispatcher/dispatcher.py`) -/

/-- A Python exception as observed at the Engine boundary: `msg` is `str(e)`
and `traceback` the `traceback.format_exc()` text. -/
structure PyErr where
  msg : String
  traceback : String
  deriving DecidableEq, Repr

/-- Behaviour of a strategy hook taking only the context: it mutates the
context (possibly appending order operations) and either returns normally or
raises. -/
def HookFn : Type := Context → Context × Option PyErr

/-- Second positional argument the dispatcher builds for a callback. -/
inductive DispatchArg where
  | bar (b : Bar)
  | order (o : Order)
  | risk (r : RiskEvent)

/-- Behaviour of a dispatched strategy callback `f(context, arg)`. -/
def Callback : Type := Context → DispatchArg → Context × Option PyErr

/-- The strategy's lifecycle function slots (`strategy_functions` dict);
`init_hook` is the `"initialize"` slot. -/
structure StrategyFunctions where
  init_hook : Option HookFn
  handle_bar : Option Callback
  on_order : Option Callback
  on_risk_event : Option Callback

/-- Python `strategy_functions.get(function_name)`. -/
def StrategyFunctions.get (sf : StrategyFunctions) : String → Option Callback
  | "handle_bar" => sf.handle_bar
  | "on_order" => sf.on_order
  | "on_risk_event" => sf.on_risk_event
  | _ => Option.none

/-- The `trigger_detail` dict as read by the dispatcher. -/
structure TriggerDetail where
  risk_event_type : ℕ := 0
  remark : String := ""
  deriving DecidableEq, Repr

/-- The `TRIGGER_TO_FUNCTION` class map: MARKET_DATA (1) → handle_bar,
RISK_MANAGE (2) → on_risk_event, ORDER_STATUS (3) → on_order. -/
def TRIGGER_TO_FUNCTION : ℤ → Option String
  | 1 => some "handle_bar"
  | 2 => some "on_risk_event"
  | 3 => some "on_order"
  | _ => Option.none

/-- Result triple of `EventDispatcher.dispatch`: `(None, None, None)`,
`(name, None, None)`, or `(name, func, func_args)`. -/
inductive DispatchResult where
  | nnn
  | slotOnly (name : String)
  | call (name : String) (func : Callback) (args : Context × DispatchArg)

/-- Model of `EventDispatcher.dispatch`.  `TriggerType(trigger_type)` raises
`ValueError` for any integer outside the declared enum values {0,1,2,3};
that exception is the `Except.error` branch.  INVALID (0) yields
`(None, None, None)`; a known kind whose slot is missing yields
`(name, None, None)`; MARKET_DATA with no bars yields `(name, None, None)`;
otherwise the callback and its argument tuple are returned. -/
def EventDispatcher.dispatch (sf : StrategyFunctions) (trigger_type : ℤ)
    (trigger_detail : TriggerDetail) (context : Context)
    (market_data_context : List MarketDataBlock) (incomplete_orders : List Order) :
    Except PyErr DispatchResult :=
  if trigger_type = 0 ∨ trigger_type = 1 ∨ trigger_type = 2 ∨ trigger_type = 3 then
    if trigger_type = 0 then Except.ok DispatchResult.nnn
    else
      match TRIGGER_TO_FUNCTION trigger_type with
      | Option.none => Except.ok DispatchResult.nnn
      | some function_name =>
        match sf.get function_name with
        | Option.none => Except.ok (DispatchResult.slotOnly function_name)
        | some func =>
          if trigger_type = 1 then
            match market_data_context with
            | [] => Except.ok (DispatchResult.slotOnly function_name)
            | blk :: _ =>
              match blk.bars.getLast? with
              | Option.none => Except.ok (DispatchResult.slotOnly function_name)
              | some latest =>
                  Except.ok (DispatchResult.call function_name func (context, DispatchArg.bar latest))
          else if trigger_type = 3 then
            Except.ok (DispatchResult.call function_name func
              (context, DispatchArg.order (incomplete_orders.headD {})))
          else
            Except.ok (DispatchResult.call function_name func
              (context, DispatchArg.risk ⟨trigger_detail.risk_event_type, trigger_detail.remark⟩))
  else
    Except.error ⟨toString trigger_type ++ " is not a valid TriggerType", ""⟩

/-! ## Lifecycle manager (`engine/lifecycle/lifecycle.py`) -/

/-- Outcome of one `LifecycleManager.initialize` call: the (possibly
mutated) context, the updated `_initialized_contexts` set, the escaping
exception if the hook raised, and whether the hook was invoked at all. -/
structure InitOutcome where
  ctx : Context
  seen : List String
  exn : Option PyErr
  ran : Bool

/-- Model of `LifecycleManager.initialize` (named `initOnce` here): skip if
the context's `exec_id` was seen before; otherwise invoke the strategy's
init hook when present and record the id — the id is recorded only after the
hook returns, so a raising hook leaves the id unrecorded. -/
def LifecycleManager.initOnce (init_func : Option HookFn) (seen : List String)
    (context : Context) : InitOutcome :=
  if context.exec_id ∈ seen then ⟨context, seen, Option.none, false⟩
  else
    match init_func with
    | Option.none => ⟨context, seen, Option.none, false⟩
    | some f =>
      match f context with
      | (ctx', Option.none) => ⟨ctx', context.exec_id :: seen, Option.none, true⟩
      | (ctx', some e) => ⟨ctx', seen, some e, true⟩

/-- Repeated `LifecycleManager.initialize` calls with a non-raising init
hook `f`, starting from the seen-set `seen`: returns the final seen-set and
the log of `exec_id`s for which the hook actually ran, in order. -/
def LifecycleManager.initOnceRuns (f : Context → Context) (seen : List String) :
    List Context → List String × List String
  | [] => (seen, [])
  | c :: rest =>
    let r := LifecycleManager.initOnce (some fun ctx => (f ctx, Option.none)) seen c
    let t := LifecycleManager.initOnceRuns f r.seen rest
    (t.1, (if r.ran then [c.exec_id] else []) ++ t.2)

/-! ## Engine (`engine/engine.py`, `engine/wealthdata/wealthdata.py`) -/

/-- Thread-local `_context_local` slot: `set_context` stores the context. -/
def set_context (context : Context) (_ : Option Context) : Option Context :=
  some context

/-- Thread-local `_context_local` slot: `clear_context` removes it. -/
def clear_context (_ : Option Context) : Option Context :=
  Option.none

/-- The ExecRequest dict (already parsed into its typed fields). -/
structure ExecRequest where
  trigger_type : ℤ
  trigger_detail : TriggerDetail
  market_data_context : List MarketDataBlock
  account : Account
  incomplete_orders : List Order
  completed_orders : List Order
  strategy_param : List (String × String)
  exec_id : String
  exchange : String

/-- The ExecResponse dict. -/
structure ExecResponse where
  order_op_event : List OrderOp
  status : ℕ
  error_message : String
  warnings : List String
  deriving DecidableEq, Repr

/-- Error message of the failure response:
`f"{error_msg}\n{traceback_str}"`. -/
def renderError (e : PyErr) : String :=
  e.msg ++ "\n" ++ e.traceback

/-- The success response literal of `execute`. -/
def successResponse (ops : List OrderOp) : ExecResponse :=
  { order_op_event := ops, status := 0, error_message := "", warnings := [] }

/-- The failure response literal of `execute`'s `except` block. -/
def failedResponse (e : PyErr) : ExecResponse :=
  { order_op_event := [], status := 2, error_message := renderError e, warnings := [] }

/-- Model of `StrategyExecutionEngine._build_context` plus `Context.__init__`:
the Context fields from the request, `current_bar` as the last bar of the
first market-data block when present, an empty ledger and strategy store.
The `uuid_supply` input models the ambient `uuid4` randomness. -/
def StrategyExecutionEngine._build_context (req : ExecRequest)
    (uuid_supply : List String) : Context :=
  { account := req.account,
    market_data_context := req.market_data_context,
    incomplete_orders := req.incomplete_orders,
    completed_orders := req.completed_orders,
    params := req.strategy_param,
    exec_id := req.exec_id,
    exchange := req.exchange,
    current_bar := req.market_data_context.head?.bind (fun c => c.bars.getLast?),
    order_operations := [],
    strategy_data := [],
    uuid_supply := uuid_supply }

/-- Outcome of one `StrategyExecutionEngine.execute` call: the response, the
engine's persistent `_initialized_contexts` state, and the thread-local slot
after the call. -/
structure ExecOutcome where
  response : ExecResponse
  seen : List String
  tl : Option Context

/-- Model of `StrategyExecutionEngine.execute`: build the Context, store it
in the thread-local slot, run initialization, dispatch, invoke the resolved
callback if any, and collect the ledger into a success response; any
exception raised inside (init hook, `TriggerType` conversion, or callback)
is caught at this boundary and turned into the failure response; the
`finally`/`except` paths both clear the thread-local slot. -/
def StrategyExecutionEngine.execute (sf : StrategyFunctions) (seen : List String)
    (uuid_supply : List String) (req : ExecRequest) (tl : Option Context) :
    ExecOutcome :=
  let context := StrategyExecutionEngine._build_context req uuid_supply
  let tl1 := set_context context tl
  match LifecycleManager.initOnce sf.init_hook seen context with
  | ⟨_, seen1, some e, _⟩ => ⟨failedResponse e, seen1, clear_context tl1⟩
  | ⟨ctx1, seen1, Option.none, _⟩ =>
    match EventDispatcher.dispatch sf req.trigger_type req.trigger_detail ctx1
        req.market_data_context ctx1.incomplete_orders with
    | Except.error e => ⟨failedResponse e, seen1, clear_context tl1⟩
    | Except.ok (DispatchResult.call _ func args) =>
      match func args.1 args.2 with
      | (_ctx2, some e) => ⟨failedResponse e, seen1, clear_context tl1⟩
      | (ctx2, Option.none) =>
          ⟨successResponse ctx2.get_order_operations, seen1, clear_context tl1⟩
    | Except.ok _ => ⟨successResponse ctx1.get_order_operations, seen1, clear_context tl1⟩

/-- A StrategyFunctions value with every slot empty. -/
def sfEmpty : StrategyFunctions :=
  { init_hook := Option.none, handle_bar := Option.none,
    on_order := Option.none, on_risk_event := Option.none }

/-- A concrete empty Context used to instantiate counterexamples and
witnesses. -/
def c9ctx : Context :=
  { account := {}, market_data_context := [], incomplete_orders := [],
    completed_orders := [], params := [], exec_id := "exec1", exchange := "",
    current_bar := Option.none, order_operations := [],
    strategy_data := [], uuid_supply := ["abc12345"] }

/-! ## Backtest simulator fill step
(`engine/backtest/backtest_engine.py`, `run_backtest` order loop) -/

/-- Python `dict.get(k, d)` on the `{symbol: qty}` position dict (insertion
ordered association list). -/
def dictGetD (m : List (String × ℚ)) (k : String) (d : ℚ) : ℚ :=
  match m.find? (fun p => p.1 == k) with
  | some p => p.2
  | Option.none => d

/-- Python `k in dict` on the position dict. -/
def dictContains (m : List (String × ℚ)) (k : String) : Bool :=
  (m.find? (fun p => p.1 == k)).isSome

/-- Python `dict[k] = v`: replace in place when the key exists, else append. -/
def dictSet (m : List (String × ℚ)) (k : String) (v : ℚ) : List (String × ℚ) :=
  if dictContains m k then m.map (fun p => if p.1 == k then (k, v) else p)
  else m ++ [(k, v)]

/-- Python `del dict[k]`. -/
def dictDel (m : List (String × ℚ)) (k : String) : List (String × ℚ) :=
  m.filter (fun p => p.1 != k)

/-- Cash and position state of the backtest account. -/
structure BacktestState where
  current_cash : ℚ
  positions : List (String × ℚ)
  deriving DecidableEq, Repr

/-- Price resolution of the backtest loop: a Money dict uses its `amount`, a
plain number or numeric string its value, and a missing limit price falls
back to the current bar's close. -/
def resolve_order_price (limit_price : PyVal) (bar_close : ℚ) : ℚ :=
  match limit_price with
  | .amountDict a => a
  | .num q => q
  | .pstr q => q
  | .pnone => bar_close

/-- One iteration of the backtest order loop (`run_backtest` lines 138–179):
only Create operations (`order_op_type == 1`) are considered; a Buy (1)
fills only if cash covers `price*qty`, a Sell (2) only if the held position
covers `qty`; a filled Sell whose remaining position is below `1e-8` has its
symbol deleted from the position dict; anything else leaves the state
unchanged.  The returned Bool is whether a fill record was appended to
`all_orders`. -/
def BacktestEngine.process_order_op (_default_symbol : String) (bar_close : ℚ)
    (st : BacktestState) (op : OrderOp) : BacktestState × Bool :=
  match op with
  | .cancel _ => (st, false)
  | .create _ sym dir _ qty lp _ =>
    let order_qty := PyVal.toFloat qty
    let order_price := resolve_order_price lp bar_close
    if dir = 1 then
      if st.current_cash ≥ order_price * order_qty then
        ({ current_cash := st.current_cash - order_price * order_qty,
           positions := dictSet st.positions sym (dictGetD st.positions sym 0 + order_qty) },
         true)
      else (st, false)
    else if dir = 2 then
      let current_position := dictGetD st.positions sym 0
      if current_position ≥ order_qty then
        let cash' := st.current_cash + order_price * order_qty
        let pos' := dictSet st.positions sym (current_position - order_qty)
        if dictGetD pos' sym 0 < 1 / 100000000 then
          ({ current_cash := cash', positions := dictDel pos' sym }, true)
        else
          ({ current_cash := cash', positions := pos' }, true)
      else (st, false)
    else (st, false)

/-! ## Market type detection, trade calendar and the scheduled-callback
runner (`engine/compat/market_type.py`, `engine/compat/trade_calendar.py`,
`engine/lifecycle/lifecycle.py`) -/

/-- Lookup in a string-keyed store (Python `dict.get`). -/
def lookupStr (l : List (String × String)) (k : String) : Option String :=
  (l.find? (fun p => p.1 == k)).map (fun p => p.2)

/-- Python truthiness of an optional string (`None` and `''` are falsy). -/
def pyTruthyStr : Option String → Bool
  | some s => s != ""
  | Option.none => false

/-- Python `str.upper()` (character-wise, which is exact on the ASCII
market-type names involved). -/
def pyUpper (s : String) : String :=
  String.mk (s.data.map Char.toUpper)

/-- Python `c in s` for a single character. -/
def pyContainsChar (s : String) (c : Char) : Bool :=
  s.data.contains c

/-- Python `s.split(c)[-1]`: the segment after the last occurrence of `c`
(the whole string when `c` does not occur). -/
def pySplitLast (s : String) (c : Char) : String :=
  String.mk ((s.data.reverse.takeWhile (fun x => x != c)).reverse)

/-- Model of `is_stock_market`: true iff the symbol has a dot and its last
dot-separated component is one of the stock-exchange suffixes (the explicit
`USDT` branch and the final fallthrough both return False). -/
def is_stock_market (symbol : String) : Bool :=
  if symbol = "" then false
  else if pyContainsChar symbol '.' then
    let suffix := pySplitLast symbol '.'
    if suffix = "XSHE" ∨ suffix = "XSHG" ∨ suffix = "US" ∨ suffix = "HK" then true
    else false
  else false

/-- Model of `detect_market_type`: explicit configuration (the context's
`market_type` attribute, then its params entry, each upper-cased and fed to
the enum constructor with `ValueError` swallowed) takes priority; otherwise
the symbol suffix decides; an empty symbol is UNKNOWN and an unrecognized
non-stock symbol defaults to CRYPTO.  The context's `market_type` attribute
lives in the free-form `_strategy_data` store. -/
def detect_market_type (symbol : String) (context : Option Context) : MarketType :=
  let fromCtx : Option MarketType :=
    match context with
    | Option.none => Option.none
    | some c =>
      let attrTry : Option MarketType :=
        match lookupStr c.strategy_data "market_type" with
        | some v => if v ≠ "" then MarketType.ofString? (pyUpper v) else Option.none
        | Option.none => Option.none
      match attrTry with
      | some mt => some mt
      | Option.none =>
        let pvU := pyUpper ((lookupStr c.params "market_type").getD "")
        if pvU ≠ "" then MarketType.ofString? pvU else Option.none
  match fromCtx with
  | some mt => mt
  | Option.none =>
    if symbol = "" then MarketType.UNKNOWN
    else
      let viaSuffix : Option MarketType :=
        if pyContainsChar symbol '.' then
          let suffix := pySplitLast symbol '.'
          if suffix = "XSHE" ∨ suffix = "XSHG" then some MarketType.A_STOCK
          else if suffix = "US" then some MarketType.US_STOCK
          else if suffix = "HK" then some MarketType.HK_STOCK
          else if suffix = "USDT" then some MarketType.CRYPTO
          else Option.none
        else Option.none
      match viaSuffix with
      | some mt => mt
      | Option.none =>
          if ¬ is_stock_market symbol then MarketType.CRYPTO else MarketType.UNKNOWN

/-- Views of a Python datetime used by the scheduler: its weekday, its
`%Y-%m-%d` rendering, and its pytz conversion to each market's local wall
clock (the timezone database is external data, supplied with the value). -/
structure PyDateTime where
  weekday : ℕ
  date_str : String
  localtime : MarketType → LocalTime

/-- The `DEFAULT_CALENDAR` holiday sets of `trade_calendar.py`; kinds absent
from the dict get the empty default. -/
def calendar_holidays : MarketType → List String
  | .A_STOCK =>
      ["2024-01-01", "2024-02-10", "2024-02-11", "2024-02-12", "2024-02-13",
       "2024-02-14", "2024-02-15", "2024-02-16", "2024-02-17", "2024-04-04",
       "2024-04-05", "2024-04-06", "2024-05-01", "2024-05-02", "2024-05-03",
       "2024-05-04", "2024-05-05", "2024-06-10", "2024-09-15", "2024-09-16",
       "2024-09-17", "2024-10-01", "2024-10-02", "2024-10-03", "2024-10-04",
       "2024-10-05", "2024-10-06", "2024-10-07"]
  | .US_STOCK =>
      ["2024-01-01", "2024-01-15", "2024-02-19", "2024-03-29", "2024-05-27",
       "2024-06-19", "2024-07-04", "2024-09-02", "2024-11-28", "2024-12-25"]
  | .HK_STOCK =>
      ["2024-01-01", "2024-02-10", "2024-02-11", "2024-02-12", "2024-02-13",
       "2024-03-29", "2024-04-01", "2024-04-04", "2024-05-01", "2024-05-15",
       "2024-06-10", "2024-07-01", "2024-09-18", "2024-10-01", "2024-10-11",
       "2024-12-25", "2024-12-26"]
  | _ => []

/-- Model of `TradeCalendar.is_trade_day` on the default calendar: crypto is
always a trading day; otherwise Saturday/Sunday (weekday 5/6 — the
`weekends` entry of every calendar row and of the `.get` default) and the
kind's holiday dates are not. -/
def TradeCalendar.is_trade_day (date : PyDateTime) (market_type : MarketType) : Bool :=
  if market_type = MarketType.CRYPTO then true
  else if date.weekday ∈ [5, 6] then false
  else if date.date_str ∈ calendar_holidays market_type then false
  else true

/-- A `run_daily` registration: `{'func': f, 'time': t,
'reference_security': s}`. -/
structure ScheduledEntry where
  func : Option HookFn
  time : String
  reference_security : Option String

/-- The market-kind resolution at the top of the scheduled-function loop:
a truthy reference security is detected against the context; otherwise, when
a current bar exists and the first market-data block has a non-empty symbol,
that symbol is detected; otherwise the CRYPTO default stands. -/
def resolve_entry_market_type (reference_security : Option String) (ctx : Context) :
    MarketType :=
  if pyTruthyStr reference_security then
    detect_market_type (reference_security.getD "") (some ctx)
  else
    match ctx.current_bar with
    | some _ =>
      match ctx.market_data_context with
      | [] => MarketType.CRYPTO
      | blk :: _ =>
          if blk.symbol ≠ "" then detect_market_type blk.symbol (some ctx)
          else MarketType.CRYPTO
    | Option.none => MarketType.CRYPTO

/-- Model of `LifecycleManager._call_scheduled_functions`: for each
registered entry, resolve the market kind, skip non-crypto kinds outside a
trading day, invoke the callback when the time matches, and catch (and log)
any exception it raises so the remaining entries still run; `current_time`
is the value the Python prelude computes from `context.current_dt` or the
wall clock.  Returns the final context and the log of caught errors. -/
def LifecycleManager._call_scheduled_functions (current_time : PyDateTime) :
    List ScheduledEntry → Context → Context × List PyErr
  | [], ctx => (ctx, [])
  | e :: rest, ctx =>
    match e.func with
    | Option.none => LifecycleManager._call_scheduled_functions current_time rest ctx
    | some f =>
      let market_type := resolve_entry_market_type e.reference_security ctx
      if market_type ≠ MarketType.CRYPTO
          ∧ ¬ (TradeCalendar.is_trade_day current_time market_type = true) then
        LifecycleManager._call_scheduled_functions current_time rest ctx
      else if is_time_match (current_time.localtime market_type) market_type e.time 30 then
        match f ctx with
        | (ctx', Option.none) =>
            LifecycleManager._call_scheduled_functions current_time rest ctx'
        | (ctx', some err) =>
            let t := LifecycleManager._call_scheduled_functions current_time rest ctx'
            (t.1, err :: t.2)
      else
        LifecycleManager._call_scheduled_functions current_time rest ctx

/-- Concrete raising scheduled callback for the C8 witness. -/
def c8fn : HookFn := fun c => (c, some ⟨"boom", "tb"⟩)

/-- Concrete scheduled entry for the C8 witness. -/
def c8entry : ScheduledEntry :=
  { func := some c8fn, time := "open", reference_security := some "BTCUSDT" }

/-- Concrete datetime for the C8 witness: a Tuesday whose market-local time
is midnight for every kind. -/
def c8now : PyDateTime :=
  { weekday := 1, date_str := "2024-01-02",
    localtime := fun _ => { hour := 0, minute := 0, second := 0, microsecond := 0 } }

/-- Concrete raising callback for the C2 witness: queues one order
operation on the context, then raises. -/
def c2cb : Callback :=
  fun c _ => ((c.order_buy "BTCUSDT" 1 Option.none).2, some ⟨"boom", "tb"⟩)

/-- Strategy functions for the C2 witness: only `handle_bar`, and it
raises. -/
def c2sf : StrategyFunctions :=
  { init_hook := Option.none, handle_bar := some c2cb,
    on_order := Option.none, on_risk_event := Option.none }

/-- Concrete bar for witnesses. -/
def c2bar : Bar :=
  { open_time := 0, close_time := 1000, bopen := 1, high := 1, low := 1,
    close := 1, volume := 1 }

/-- Concrete market-data execution request for the C2 witness. -/
def c2req : ExecRequest :=
  { trigger_type := 1, trigger_detail := {},
    market_data_context := [{ symbol := "BTCUSDT", timeframe := "1d", bars := [c2bar] }],
    account := {}, incomplete_orders := [], completed_orders := [],
    strategy_param := [], exec_id := "exec1", exchange := "binance" }

/-! ## Theorems -/

/-- An error message rendered at the Engine boundary is never empty (it
always contains the newline joining `str(e)` to the traceback). -/
theorem renderError_ne_empty (e : PyErr) : renderError e ≠ "" := by
  intro h
  have hlen : (renderError e).length = 0 := by rw [h]; rfl
  have h2 : (renderError e).length = (e.msg.length + 1) + e.traceback.length := by
    show ((e.msg ++ "\n") ++ e.traceback).length = _
    rw [String.length_append, String.length_append,
      show ("\n" : String).length = 1 from rfl]
  omega

/-- C6: `isTimeMatch` returns true iff the point name resolves to a target
(hour, minute) in the kind's trading-hours table and the absolute difference
in minutes between the market-local time of now and that target (same
calendar date, seconds zeroed) is at most the tolerance, boundary inclusive;
an unknown point name never matches (and never errors). -/
theorem c6_is_time_match_iff (now : LocalTime) (kind : MarketType)
    (point : String) (tol : ℤ) :
    is_time_match now kind point tol = true ↔
      ∃ h m, MARKET_TRADING_HOURS kind point = some (h, m) ∧
        |(now.toMicros : ℚ) / 60000000 - ((h : ℚ) * 60 + m)| ≤ (tol : ℚ) := by
  unfold is_time_match get_market_time_point
  rcases htab : MARKET_TRADING_HOURS kind point with _ | ⟨h, m⟩
  · simp
  · have harg0 :
        (((now.toMicros - (LocalTime.toMicros { now with hour := h, minute := m, second := 0, microsecond := 0 }) : ℤ) : ℚ) / 1000000) / 60
          = (now.toMicros : ℚ) / 60000000 - ((h : ℚ) * 60 + m) := by
      simp only [LocalTime.toMicros]
      push_cast
      ring
    simp only [decide_eq_true_eq, Option.some.injEq, harg0]
    constructor
    · intro hle
      exact ⟨h, m, rfl, hle⟩
    · rintro ⟨h', m', hpair, hle⟩
      obtain ⟨rfl, rfl⟩ : h = h' ∧ m = m' := by
        refine ⟨congrArg Prod.fst hpair, congrArg Prod.snd hpair⟩
      exact hle

/-- A list copy has the same elements in the same order. -/
theorem pyListCopy_eq {α : Type} (l : List α) : pyListCopy l = l := by
  induction l with
  | nil => rfl
  | cons a t ih => exact congrArg (List.cons a) ih

/-- C5: the order-operation ledger is append-only — `order_buy`,
`order_sell` and `cancel_order` each leave the previously queued operations
unchanged, in order, as a prefix of the new ledger, and at most append; and
`get_order_operations` returns a snapshot copy equal to the ledger without
clearing it (the Context value is left untouched; since the snapshot is a
copy, mutating the returned list cannot reach the ledger). -/
theorem c5_ledger_append_only (ctx : Context) (symbol : String) (q : ℚ)
    (price : Option ℚ) (oid : String) :
    (∃ new, ((ctx.order_buy symbol q price).2).order_operations
        = ctx.order_operations ++ new)
    ∧ (∃ new, ((ctx.order_sell symbol q price).2).order_operations
        = ctx.order_operations ++ new)
    ∧ (∃ new, ((ctx.cancel_order oid).2).order_operations
        = ctx.order_operations ++ new)
    ∧ ctx.get_order_operations = ctx.order_operations := by
  refine ⟨⟨_, rfl⟩, ⟨_, rfl⟩, ?_, pyListCopy_eq _⟩
  unfold Context.cancel_order
  split
  · exact ⟨_, rfl⟩
  · exact ⟨[], (List.append_nil _).symm⟩

/-- C7: `cancel_order id` reports success iff `id` matches the `order_id` or
`unique_id` of some incomplete order of this Context; on success it appends
exactly one Cancel operation, and on failure the Context — ledger included —
is completely unchanged. -/
theorem c7_cancel_order (ctx : Context) (oid : String) :
    ((ctx.cancel_order oid).1 = true ↔
      ∃ o ∈ ctx.incomplete_orders, o.order_id = oid ∨ o.unique_id = oid)
    ∧ (ctx.cancel_order oid).2
        = (if (ctx.cancel_order oid).1 then
            { ctx with order_operations := ctx.order_operations ++ [OrderOp.cancel oid] }
          else ctx) := by
  unfold Context.cancel_order
  constructor
  · by_cases h : ∃ o ∈ ctx.incomplete_orders, o.order_id = oid ∨ o.unique_id = oid
    · have hb : ctx.incomplete_orders.any
          (fun o => o.order_id == oid || o.unique_id == oid) = true := by
        simpa [List.any_eq_true] using h
      simp [hb, h]
    · have hb : ¬ (ctx.incomplete_orders.any
          (fun o => o.order_id == oid || o.unique_id == oid) = true) := by
        simpa [List.any_eq_true] using h
      simp [hb, h]
  · split
    · simp
    · simp

/-- C9 counterexample: the claim says the Create payload carries the
quantities as exact-precision strings, but `_create_order` writes the raw
float into the `"qty"` slot (`"qty": order.qty`): at a concrete buy of
quantity 5 the payload's qty entry is a number, not a string. -/
theorem c9_counterexample_qty_is_number :
    PyVal.isStr (OrderOp.payload_qty
      ((((c9ctx.order_buy "BTCUSDT" 5 Option.none).2).order_operations).headD
        (OrderOp.cancel ""))) = false := by
  rfl

/-- C9 (amended): `order_buy`/`order_sell` construct an Order with the fixed
direction, type Limit (2) iff a price is given else Market (1), status New
(1), and a freshly generated `{exec_id}_{uuid-hex8}` id; append exactly one
Create operation whose payload carries the quantity as a raw number, the
limit price (when given) as its decimal string rendering, and time-in-force
defaulted to 2 (GTC); and return the constructed Order. -/
theorem c9_order_create (ctx : Context) (symbol : String) (q : ℚ)
    (price : Option ℚ) :
    (let r := ctx.order_buy symbol q price
     r.1.direction_type = 1 ∧ r.1.status = 1 ∧ r.1.qty = q ∧
       r.1.order_type = (if price.isSome then 2 else 1) ∧
       r.1.unique_id = ctx.exec_id ++ "_" ++ ctx.uuid_supply.headD "" ∧
       r.2.order_operations = ctx.order_operations ++
         [OrderOp.create r.1.unique_id symbol 1 r.1.order_type (PyVal.num q)
           (match price with
            | some p => PyVal.pstr p
            | Option.none => PyVal.pnone) 2])
    ∧ (let r := ctx.order_sell symbol q price
       r.1.direction_type = 2 ∧ r.1.status = 1 ∧ r.1.qty = q ∧
         r.1.order_type = (if price.isSome then 2 else 1) ∧
         r.1.unique_id = ctx.exec_id ++ "_" ++ ctx.uuid_supply.headD "" ∧
         r.2.order_operations = ctx.order_operations ++
           [OrderOp.create r.1.unique_id symbol 2 r.1.order_type (PyVal.num q)
             (match price with
              | some p => PyVal.pstr p
              | Option.none => PyVal.pnone) 2]) := by
  constructor
  · exact ⟨rfl, rfl, rfl, rfl, rfl, rfl⟩
  · exact ⟨rfl, rfl, rfl, rfl, rfl, rfl⟩

/-- C10: every response returned by `execute` is either Success (0) with an
empty error message or Failed (2) with an empty order-operation list and a
non-empty error message; the declared PartialSuccess status (1) is never
produced. -/
theorem c10_status_contract (sf : StrategyFunctions) (seen : List String)
    (us : List String) (req : ExecRequest) (tl : Option Context) :
    ((StrategyExecutionEngine.execute sf seen us req tl).response.status = 0
      ∧ (StrategyExecutionEngine.execute sf seen us req tl).response.error_message = "")
    ∨ ((StrategyExecutionEngine.execute sf seen us req tl).response.status = 2
      ∧ (StrategyExecutionEngine.execute sf seen us req tl).response.order_op_event = []
      ∧ (StrategyExecutionEngine.execute sf seen us req tl).response.error_message ≠ "") := by
  simp only [StrategyExecutionEngine.execute]
  repeat' split
  all_goals
    first
    | exact Or.inl ⟨rfl, rfl⟩
    | exact Or.inr ⟨rfl, rfl, renderError_ne_empty _⟩

/-- C2: when the dispatched callback raises, `execute` returns the Failed
(2) response with the captured, non-empty error message, discards every
order operation queued during that call (the response's list is empty even
though the callback's context may hold queued operations), and clears the
thread-local active-context slot. -/
theorem c2_callback_error_contract (sf : StrategyFunctions) (seen us : List String)
    (req : ExecRequest) (tl : Option Context) (ctx1 : Context) (seen1 : List String)
    (ran : Bool) (name : String) (func : Callback) (args : Context × DispatchArg)
    (ctx2 : Context) (e : PyErr)
    (hinit : LifecycleManager.initOnce sf.init_hook seen
        (StrategyExecutionEngine._build_context req us) = ⟨ctx1, seen1, Option.none, ran⟩)
    (hdisp : EventDispatcher.dispatch sf req.trigger_type req.trigger_detail ctx1
        req.market_data_context ctx1.incomplete_orders
        = Except.ok (DispatchResult.call name func args))
    (hcall : func args.1 args.2 = (ctx2, some e)) :
    StrategyExecutionEngine.execute sf seen us req tl
      = ⟨failedResponse e, seen1, Option.none⟩
    ∧ (failedResponse e).status = 2
    ∧ (failedResponse e).order_op_event = []
    ∧ (failedResponse e).error_message ≠ "" := by
  refine ⟨?_, rfl, rfl, renderError_ne_empty e⟩
  simp only [StrategyExecutionEngine.execute, hinit, hdisp, hcall, clear_context]

/-- Witness for C2 at a concrete request: the raising `handle_bar` queues an
operation and then raises; `execute` returns Failed with an empty
order-operation list and a cleared thread-local slot. -/
theorem c2_callback_error_witness :
    StrategyExecutionEngine.execute c2sf [] ["u1"] c2req Option.none
        = ⟨failedResponse ⟨"boom", "tb"⟩, [], Option.none⟩
      ∧ ((c2cb (StrategyExecutionEngine._build_context c2req ["u1"]) (DispatchArg.bar c2bar)).1).order_operations ≠ [] := by
  constructor
  · exact (c2_callback_error_contract c2sf [] ["u1"] c2req Option.none
      (StrategyExecutionEngine._build_context c2req ["u1"]) [] false "handle_bar" c2cb
      (StrategyExecutionEngine._build_context c2req ["u1"], DispatchArg.bar c2bar)
      ((StrategyExecutionEngine._build_context c2req ["u1"]).order_buy "BTCUSDT" 1 Option.none).2
      ⟨"boom", "tb"⟩ rfl rfl rfl).1
  · decide

/-- C3 counterexample: `dispatch` with the unknown trigger value 4 does not
return `(None, None, None)`; the `TriggerType(trigger_type)` conversion
raises a `ValueError` instead. -/
theorem c3_counterexample_unknown_kind_raises :
    EventDispatcher.dispatch sfEmpty 4 {} c9ctx [] []
        = Except.error ⟨toString (4 : ℤ) ++ " is not a valid TriggerType", ""⟩
      ∧ EventDispatcher.dispatch sfEmpty 4 {} c9ctx [] [] ≠ Except.ok DispatchResult.nnn := by
  have h1 : EventDispatcher.dispatch sfEmpty 4 {} c9ctx [] []
      = Except.error ⟨toString (4 : ℤ) ++ " is not a valid TriggerType", ""⟩ := rfl
  refine ⟨h1, fun hok => ?_⟩
  rw [h1] at hok
  exact Except.noConfusion hok

/-- C3 (amended): the Invalid kind (0) yields `(None, None, None)`, but any
trigger value outside the declared enum values {0, 1, 2, 3} makes `dispatch`
raise `ValueError` (surfaced by the Engine as a Failed response) rather than
return `(None, None, None)`. -/
theorem c3_amended_dispatch_unknown (sf : StrategyFunctions) (t : ℤ)
    (d : TriggerDetail) (c : Context) (md : List MarketDataBlock)
    (incomplete : List Order) (h : t ≠ 1 ∧ t ≠ 2 ∧ t ≠ 3) :
    EventDispatcher.dispatch sf t d c md incomplete
      = if t = 0 then Except.ok DispatchResult.nnn
        else Except.error ⟨toString t ++ " is not a valid TriggerType", ""⟩ := by
  obtain ⟨h1, h2, h3⟩ := h
  unfold EventDispatcher.dispatch
  by_cases h0 : t = 0
  · simp [h0]
  · simp [h0, h1, h2, h3]

/-- Witness for the amended C3 at the concrete trigger value 4. -/
theorem c3_amended_witness :
    ((4 : ℤ) ≠ 1 ∧ (4 : ℤ) ≠ 2 ∧ (4 : ℤ) ≠ 3)
      ∧ EventDispatcher.dispatch sfEmpty 4 {} c9ctx [] []
          = (if (4 : ℤ) = 0 then Except.ok DispatchResult.nnn
             else Except.error ⟨toString (4 : ℤ) ++ " is not a valid TriggerType", ""⟩) :=
  ⟨by decide, c3_amended_dispatch_unknown sfEmpty 4 {} c9ctx [] [] (by decide)⟩

/-- Counting helper for C4: over any call sequence, the init hook runs for a
given id exactly once if some call carries that id and it was not seen
before, and never otherwise. -/
theorem initOnceRuns_count (f : Context → Context) (i : String) :
    ∀ (calls : List Context) (seen : List String),
      ((LifecycleManager.initOnceRuns f seen calls).2).count i
        = if i ∈ calls.map Context.exec_id ∧ i ∉ seen then 1 else 0 := by
  intro calls
  induction calls with
  | nil => intro seen; simp [LifecycleManager.initOnceRuns]
  | cons c rest ih =>
    intro seen
    by_cases hmem : c.exec_id ∈ seen
    · have hr : LifecycleManager.initOnce (some fun ctx => (f ctx, Option.none)) seen c
          = ⟨c, seen, Option.none, false⟩ := by
        simp [LifecycleManager.initOnce, hmem]
      simp only [LifecycleManager.initOnceRuns, hr, if_neg Bool.false_ne_true,
        List.nil_append]
      rw [ih seen]
      by_cases hic : i = c.exec_id
      · subst hic
        simp [hmem]
      · simp [hic, List.mem_cons]
    · have hr : LifecycleManager.initOnce (some fun ctx => (f ctx, Option.none)) seen c
          = ⟨f c, c.exec_id :: seen, Option.none, true⟩ := by
        simp [LifecycleManager.initOnce, hmem]
      simp only [LifecycleManager.initOnceRuns, hr, if_pos rfl]
      rw [List.count_append, ih (c.exec_id :: seen)]
      by_cases hic : i = c.exec_id
      · subst hic
        simp [hmem, List.mem_cons]
      · simp [hic, List.mem_cons, Ne.symm hic]

/-- C4: with the init hook defined, any sequence of `initializeOnce` calls
starting from a fresh Engine runs the hook exactly once per distinct
`exec_id` that occurs in the sequence — repeated calls with the same id do
not run it again, and a previously unseen id runs it once. -/
theorem c4_init_hook_runs_once (f : Context → Context) (calls : List Context)
    (i : String) :
    ((LifecycleManager.initOnceRuns f [] calls).2).count i
      = if i ∈ calls.map Context.exec_id then 1 else 0 := by
  rw [initOnceRuns_count]
  simp

/-- Replacing an existing key's value in place makes it the key's find?
result. -/
theorem find?_replace (k : String) (v : ℚ) (m : List (String × ℚ))
    (h : dictContains m k = true) :
    ((m.map (fun p => if p.1 == k then (k, v) else p)).find? (fun p => p.1 == k))
      = some (k, v) := by
  induction m with
  | nil => simp [dictContains] at h
  | cons a t ih =>
    by_cases ha : a.1 = k
    · rw [List.map_cons, show (if (a.1 == k) = true then (k, v) else a) = (k, v) from by simp [ha],
        List.find?_cons_of_pos _ (by simp)]
    · rw [List.map_cons, show (if (a.1 == k) = true then (k, v) else a) = a from by simp [ha],
        List.find?_cons_of_neg _ (by simp [ha])]
      refine ih ?_
      unfold dictContains at h
      rwa [List.find?_cons_of_neg _ (by simp [ha])] at h

/-- Appending a fresh key makes it the key's find? result. -/
theorem find?_append_single (k : String) (v : ℚ) (m : List (String × ℚ))
    (h : dictContains m k = false) :
    ((m ++ [(k, v)]).find? (fun p => p.1 == k)) = some (k, v) := by
  induction m with
  | nil => simp
  | cons a t ih =>
    by_cases ha : a.1 == k
    · exfalso
      simp [dictContains, List.find?_cons, ha] at h
    · have ht : dictContains t k = false := by
        simpa [dictContains, List.find?_cons, ha] using h
      simpa [List.find?_cons, ha] using ih ht

/-- After `dict[k] = v`, looking up `k` finds `(k, v)`. -/
theorem find?_dictSet_self (m : List (String × ℚ)) (k : String) (v : ℚ) :
    ((dictSet m k v).find? (fun p => p.1 == k)) = some (k, v) := by
  unfold dictSet
  by_cases h : dictContains m k
  · rw [if_pos h]
    exact find?_replace k v m h
  · rw [if_neg h]
    exact find?_append_single k v m (by simpa using h)

/-- After `dict[k] = v`, `dict.get(k, d)` is `v`. -/
theorem dictGetD_set_self (m : List (String × ℚ)) (k : String) (v d : ℚ) :
    dictGetD (dictSet m k v) k d = v := by
  unfold dictGetD
  rw [find?_dictSet_self]

/-- After `del dict[k]`, looking up `k` finds nothing. -/
theorem find?_dictDel_self (m : List (String × ℚ)) (k : String) :
    ((dictDel m k).find? (fun p => p.1 == k)) = Option.none := by
  apply List.find?_eq_none.mpr
  intro x hx
  have hmem := List.mem_filter.mp hx
  simpa using hmem.2

/-- C1: in the backtest fill step, a drained Create Buy fills iff
`cash ≥ price*qty`, and then cash decreases by `price*qty` while the
symbol's position increases by `qty`; a drained Create Sell fills iff
`position[symbol] ≥ qty`, and then cash increases by `price*qty`, the
symbol's position decreases by `qty`, and the symbol is deleted from the
position dict exactly when the remaining quantity is below the `1e-8`
floating tolerance; an order failing its check leaves cash and the position
dict unchanged. -/
theorem c1_backtest_fill (st : BacktestState) (uid sym : String) (ot : ℕ)
    (q : ℚ) (lp : PyVal) (tif : ℕ) (dsym : String) (close : ℚ) :
    (let p := resolve_order_price lp close
     let rb := BacktestEngine.process_order_op dsym close st
       (OrderOp.create uid sym 1 ot (PyVal.num q) lp tif)
     (rb.2 = true ↔ st.current_cash ≥ p * q)
     ∧ rb.1.current_cash
         = (if st.current_cash ≥ p * q then st.current_cash - p * q else st.current_cash)
     ∧ rb.1.positions
         = (if st.current_cash ≥ p * q then
              dictSet st.positions sym (dictGetD st.positions sym 0 + q)
            else st.positions)
     ∧ dictGetD rb.1.positions sym 0
         = (if st.current_cash ≥ p * q then dictGetD st.positions sym 0 + q
            else dictGetD st.positions sym 0))
    ∧
    (let p := resolve_order_price lp close
     let pos0 := dictGetD st.positions sym 0
     let rs := BacktestEngine.process_order_op dsym close st
       (OrderOp.create uid sym 2 ot (PyVal.num q) lp tif)
     (rs.2 = true ↔ pos0 ≥ q)
     ∧ rs.1.current_cash
         = (if pos0 ≥ q then st.current_cash + p * q else st.current_cash)
     ∧ rs.1.positions
         = (if pos0 ≥ q then
              (if pos0 - q < 1 / 100000000 then
                dictDel (dictSet st.positions sym (pos0 - q)) sym
               else dictSet st.positions sym (pos0 - q))
            else st.positions)
     ∧ (rs.1.positions.find? (fun pr => pr.1 == sym))
         = (if pos0 ≥ q then
              (if pos0 - q < 1 / 100000000 then Option.none
               else some (sym, pos0 - q))
            else st.positions.find? (fun pr => pr.1 == sym))) := by
  constructor
  · dsimp only [BacktestEngine.process_order_op, PyVal.toFloat]
    norm_num
    by_cases hc : st.current_cash ≥ resolve_order_price lp close * q
    · simp [hc, dictGetD_set_self]
    · simp [hc]
  · dsimp only [BacktestEngine.process_order_op, PyVal.toFloat]
    norm_num
    by_cases h1 : dictGetD st.positions sym 0 ≥ q
    · by_cases h2 : dictGetD st.positions sym 0 - q < (100000000 : ℚ)⁻¹
      · simp [h1, h2, one_div, dictGetD_set_self, find?_dictDel_self]
      · simp [h1, h2, one_div, dictGetD_set_self, find?_dictSet_self]
    · simp [h1]

/-- C8: an exception raised by a due scheduled callback is caught and
logged — the runner returns normally (by totality of the function, the
enclosing request cannot fail because of it), the error is recorded in the
log, and the remaining registered entries are processed exactly as the
runner processes them from the callback's resulting context, so every later
entry is still evaluated and invoked when its time matches. -/
theorem c8_scheduler_error_isolation (now : PyDateTime) (e : ScheduledEntry)
    (rest : List ScheduledEntry) (ctx ctx' : Context) (f : HookFn) (err : PyErr)
    (hf : e.func = some f)
    (hday : resolve_entry_market_type e.reference_security ctx = MarketType.CRYPTO
      ∨ TradeCalendar.is_trade_day now (resolve_entry_market_type e.reference_security ctx) = true)
    (hmatch : is_time_match (now.localtime (resolve_entry_market_type e.reference_security ctx))
      (resolve_entry_market_type e.reference_security ctx) e.time 30 = true)
    (hcall : f ctx = (ctx', some err)) :
    LifecycleManager._call_scheduled_functions now (e :: rest) ctx
      = ((LifecycleManager._call_scheduled_functions now rest ctx').1,
         err :: (LifecycleManager._call_scheduled_functions now rest ctx').2) := by
  have hskip : ¬ (resolve_entry_market_type e.reference_security ctx ≠ MarketType.CRYPTO
      ∧ ¬ (TradeCalendar.is_trade_day now (resolve_entry_market_type e.reference_security ctx) = true)) := by
    rcases hday with h | h
    · exact fun hc => hc.1 h
    · exact fun hc => hc.2 h
  simp only [LifecycleManager._call_scheduled_functions, hf, if_neg hskip, hmatch,
    if_pos trivial, if_true, hcall]

/-- The witness datetime is within tolerance of the crypto `open` point. -/
theorem c8now_open_match :
    is_time_match (c8now.localtime MarketType.CRYPTO) MarketType.CRYPTO "open" 30 = true := by
  have htab : get_market_time_point (c8now.localtime MarketType.CRYPTO)
      MarketType.CRYPTO "open"
      = some { hour := 0, minute := 0, second := 0, microsecond := 0 } := rfl
  unfold is_time_match
  rw [htab]
  rw [decide_eq_true_eq]
  norm_num [LocalTime.toMicros, c8now]

/-- Witness for C8: one due raising entry followed by nothing — the runner
returns the untouched context together with the caught error. -/
theorem c8_scheduler_error_isolation_witness :
    LifecycleManager._call_scheduled_functions c8now [c8entry] c9ctx
      = (c9ctx, [⟨"boom", "tb"⟩]) := by
  have h := c8_scheduler_error_isolation c8now c8entry [] c9ctx c9ctx c8fn
    ⟨"boom", "tb"⟩ rfl (Or.inl rfl) c8now_open_match rfl
  simpa [LifecycleManager._call_scheduled_functions] using h

end StrategySpec
